import Mathlib

/-!
# Verification of the acoustic-dashboard simulation core

Shallow embedding of the fabrication-and-playback engine of
`acoustic_dashboard.py` (class `AcousticSensorDashboard`):

* `generate_simulation_data` — the series synthesizer;
* `start_simulation` / `stop_simulation` / `get_simulation_status` — the
  playback controller;
* `_simulation_loop` — the cadence clock, modelled as a small-step
  transition system interleaved with the stop action;
* `create_real_time_acoustic_spectrum` / `create_real_time_acoustic_heatmap`
  and the `[:current_time_index + 1]` slices of the chart functions — the
  snapshot readers.

Python numeric conventions are modelled explicitly: `int(x)` truncates a
rational toward zero, `range(0, stop, step)` enumerates `k * step` for
`k < ⌈stop/step⌉`, list/array indexing accepts negative indices that wrap
from the end and raises `IndexError` outside `[-len, len)`.  Amplitude
values live in `ℝ` (the source computes with `np.sin` and gaussian draws);
the process-wide random source `np.random` is modelled as an injected
stream `rng : ℕ → ℝ` of normal draws, consumed left to right exactly in
the order the source draws them (per row: B frequency draws, 2 level
draws, 1 pressure draw).
-/

namespace AcousticDash

/-- Python `int(q)` on a rational: truncation toward zero. -/
def pyInt (q : ℚ) : ℤ := if q < 0 then ⌈q⌉ else ⌊q⌋

/-- Number of elements of Python `range(0, stop, step)` for a positive step:
`⌈stop/step⌉` when `stop > 0`, else `0`. -/
def pyRangeLen (stop step : ℤ) : ℕ :=
  if 0 < step then ((stop + step - 1) / step).toNat else 0

/-- Python `range(0, stop, step)` as the list `[0, step, 2*step, …]`. -/
def pyRange (stop step : ℤ) : List ℤ :=
  (List.range (pyRangeLen stop step)).map (fun k => (k : ℤ) * step)

/-- `total_seconds = int(duration_minutes * 60)` from
`generate_simulation_data` (line 58). -/
def totalSeconds (durationMinutes : ℚ) : ℤ := pyInt (durationMinutes * 60)

/-- `interval_seconds = max(1, int(update_interval))` from
`generate_simulation_data` (line 59). -/
def intervalSeconds (updateInterval : ℚ) : ℤ := max 1 (pyInt updateInterval)

/-- Number of loop iterations of `for i in range(0, total_seconds,
interval_seconds)` (line 60): the number of rows of every generated array. -/
def rowCount (durationMinutes updateInterval : ℚ) : ℕ :=
  pyRangeLen (totalSeconds durationMinutes) (intervalSeconds updateInterval)

/-- The loop variable `i` at iteration `k`: `i = k * interval_seconds`. -/
def loopVar (updateInterval : ℚ) (k : ℕ) : ℤ :=
  (k : ℤ) * intervalSeconds updateInterval

/-- `current_time = start_time + timedelta(seconds=i * update_interval)`
(line 61), as seconds on a rational time line. -/
def timePoint (startTime updateInterval : ℚ) (k : ℕ) : ℚ :=
  startTime + (loopVar updateInterval k : ℚ) * updateInterval

/-- The `time_points` list built by the synthesis loop. -/
def timePointsList (startTime durationMinutes updateInterval : ℚ) : List ℚ :=
  (List.range (rowCount durationMinutes updateInterval)).map
    (timePoint startTime updateInterval)

/-- One row of the loaded acoustic CSV: the frequency-band amplitudes
(columns starting with `f`) and the two level readings. -/
structure AcousticRow where
  freqs : List ℝ
  levelContact : ℝ
  levelAmbient : ℝ

/-- The dict returned by `generate_simulation_data`: four parallel arrays. -/
structure SimData where
  timePoints : List ℚ
  freqData : List (List ℝ)
  levelData : List (List ℝ)
  pressureData : List (List ℝ)

/-- Python exceptions the embedded functions can raise. -/
inductive PyError where
  | attributeError
  | typeError
  | indexError
  | zeroDivisionError
deriving DecidableEq

/-- Draws consumed from `np.random` per loop iteration: `B` frequency
draws (`np.random.normal(0, 0.5, B)`), 2 level draws
(`np.random.normal(0, 10, 2)`), 1 pressure draw
(`np.random.normal(0, 0.1)`), in that order. -/
def drawsPerRow (B : ℕ) : ℕ := B + 3

/-- `new_freq = base_freq_data + noise + trend` (lines 65-67): elementwise
sum of the base amplitudes, the gaussian draw vector for this row, and the
scalar trend `np.sin(2 * np.pi * i / (60 * 10)) * 2`.  `rng` is the stream
of values produced by the process-wide random source, indexed by draw
order; row `k` of `B` bands owns draw indices `k*(B+3) .. k*(B+3)+B+2`. -/
noncomputable def freqRow (baseFreq : List ℝ) (rng : ℕ → ℝ) (k : ℕ) (i : ℤ) :
    List ℝ :=
  List.zipWith
    (fun b n => b + n + Real.sin (2 * Real.pi * (i : ℝ) / (60 * 10)) * 2)
    baseFreq
    ((List.range baseFreq.length).map
      (fun j => rng (k * drawsPerRow baseFreq.length + j)))

/-- `new_levels = base_levels + level_noise + level_trend` (lines 71-73),
with trend `np.sin(2 * np.pi * i / (60 * 5)) * 20`. -/
noncomputable def levelRow (baseLC baseLA : ℝ) (B : ℕ) (rng : ℕ → ℝ)
    (k : ℕ) (i : ℤ) : List ℝ :=
  [baseLC + rng (k * drawsPerRow B + B)
      + Real.sin (2 * Real.pi * (i : ℝ) / (60 * 5)) * 20,
   baseLA + rng (k * drawsPerRow B + B + 1)
      + Real.sin (2 * Real.pi * (i : ℝ) / (60 * 5)) * 20]

/-- `new_pressure = 1.0 + pressure_noise + pressure_trend`, with trend
`np.sin(2 * np.pi * i / (60 * 3)) * 0.3`, emitted as the row
`[p, p * 0.95, 0.26, 0.08]` (lines 77-81). -/
noncomputable def pressureRow (B : ℕ) (rng : ℕ → ℝ) (k : ℕ) (i : ℤ) :
    List ℝ :=
  let p : ℝ := 1.0 + rng (k * drawsPerRow B + B + 2)
      + Real.sin (2 * Real.pi * (i : ℝ) / (60 * 3)) * 0.3
  [p, p * 0.95, 0.26, 0.08]

/-- The four arrays built by the synthesis loop of
`generate_simulation_data`, from the base row `r0 = acoustic_data.iloc[0]`;
`startTime` is the `datetime.now()` captured at line 51. -/
noncomputable def mkSimData (r0 : AcousticRow) (rng : ℕ → ℝ)
    (startTime durationMinutes updateInterval : ℚ) : SimData :=
  let n := rowCount durationMinutes updateInterval
  let B := r0.freqs.length
  { timePoints := (List.range n).map (timePoint startTime updateInterval)
    freqData := (List.range n).map
      (fun k => freqRow r0.freqs rng k (loopVar updateInterval k))
    levelData := (List.range n).map
      (fun k => levelRow r0.levelContact r0.levelAmbient B rng k
        (loopVar updateInterval k))
    pressureData := (List.range n).map
      (fun k => pressureRow B rng k (loopVar updateInterval k)) }

/-- `generate_simulation_data` (lines 43-89).  `acoustic` is
`self.acoustic_data`: `none` when `load_data` failed (the attribute is the
Python value `None`, so `self.acoustic_data.empty` raises
`AttributeError`); an empty list models an empty dataframe (the
`if not self.acoustic_data.empty` guard fails and the function returns
Python `None`, modelled as `Except.ok none`). -/
noncomputable def generate_simulation_data
    (acoustic : Option (List AcousticRow)) (rng : ℕ → ℝ)
    (startTime durationMinutes updateInterval : ℚ) :
    Except PyError (Option SimData) :=
  match acoustic with
  | none => .error .attributeError
  | some [] => .ok none
  | some (r0 :: _) =>
      .ok (some (mkSimData r0 rng startTime durationMinutes updateInterval))

/-- The Python value stored in `self.simulation_data`: the constructor
initialises it to the empty list `[]`; `start_simulation` overwrites it
with the dict returned by `generate_simulation_data`, which is `None`
when the acoustic dataframe is empty. -/
inductive SimSlot where
  | initialList
  | pyNone
  | series (sd : SimData)

/-- Python truthiness of `self.simulation_data`: `[]` and `None` are
falsy, a (four-key) dict is truthy. -/
def SimSlot.truthy : SimSlot → Bool
  | .series _ => true
  | _ => false

/-- The mutable fields of `AcousticSensorDashboard` that the simulation
core touches, plus the immutable `acoustic_data` loaded at construction. -/
structure DashState where
  simulationRunning : Bool
  currentTimeIndex : ℕ
  simulationData : SimSlot
  simulationStartTime : Option ℚ
  acousticData : Option (List AcousticRow)

/-- The dashboard state right after `__init__` (lines 13-19). -/
def initDashState (acoustic : Option (List AcousticRow)) : DashState :=
  { simulationRunning := false
    currentTimeIndex := 0
    simulationData := .initialList
    simulationStartTime := none
    acousticData := acoustic }

/-- The two distinct strings `start_simulation` can return:
`"Simulation already running!"` and the `"🚀 Simulation started! …"`
success message. -/
inductive StartResult where
  | alreadyRunning
  | started
deriving DecidableEq

/-- `start_simulation` (lines 91-109), as a state transformer.  The
mutations happen in source order: the running flag is set *before*
`generate_simulation_data` is called, so if generation raises, the
exception propagates with the flag already flipped and the remaining
fields untouched.  `genTime` and `startTime` are the two `datetime.now()`
calls (inside generation, line 51, and at line 98). -/
noncomputable def start_simulation (rng : ℕ → ℝ)
    (genTime startTime durationMinutes updateInterval : ℚ)
    (s : DashState) : DashState × Except PyError StartResult :=
  if s.simulationRunning then (s, .ok .alreadyRunning)
  else
    let s1 := { s with simulationRunning := true }
    match generate_simulation_data s.acousticData rng genTime
        durationMinutes updateInterval with
    | .error e => (s1, .error e)
    | .ok res =>
        ({ s1 with
            simulationData := match res with
              | none => SimSlot.pyNone
              | some sd => SimSlot.series sd
            simulationStartTime := some startTime
            currentTimeIndex := 0 },
         .ok .started)

/-- `stop_simulation` (lines 111-116): clears the running flag, then
joins the clock thread with a one-second timeout, and always returns the
string `"⏹️ Simulation stopped."`.  Sequential effect on the owned
fields: only the flag changes. -/
def stop_simulation (s : DashState) : DashState :=
  { s with simulationRunning := false }

/-- What `get_simulation_status` reports: either the
`"⏸️ Simulation not running"` string or the
`"🔄 LIVE - Elapsed: MM:SS | Progress: p% | Data Points: n"` string,
carried with the numbers interpolated into it. -/
inductive StatusResult where
  | notRunning
  | live (elapsedMinutes elapsedSeconds : ℤ) (progress : ℚ) (dataPoints : ℕ)

/-- `get_simulation_status` (lines 126-138).  `elapsed` is computed from
`simulation_start_time` first (raising `TypeError` when that field is
still `None`), then `progress = (current_time_index / len(time_points)) *
100` guarded by the truthiness of `simulation_data` (division by zero
raises when the generated series has no rows). -/
def get_simulation_status (now : ℚ) (s : DashState) :
    Except PyError StatusResult :=
  if s.simulationRunning = false then .ok .notRunning
  else
    match s.simulationStartTime with
    | none => .error .typeError
    | some t0 =>
        let e : ℚ := now - t0
        let em : ℤ := ⌊e / 60⌋
        let es : ℤ := ⌊e - 60 * ⌊e / 60⌋⌋
        match s.simulationData with
        | .series sd =>
            if sd.timePoints.length = 0 then .error .zeroDivisionError
            else .ok (.live em es
              ((s.currentTimeIndex : ℚ) / (sd.timePoints.length : ℚ) * 100)
              (s.currentTimeIndex + 1))
        | _ => .ok (.live em es 0 (s.currentTimeIndex + 1))

/-- Python / numpy indexing `xs[i]` for an integer `i`: indices in
`[0, len)` select directly, indices in `[-len, 0)` wrap from the end,
anything else raises `IndexError` (modelled as `none`). -/
def npIndex {α : Type} (xs : List α) (i : ℤ) : Option α :=
  let j : ℤ := if i < 0 then (xs.length : ℤ) + i else i
  if 0 ≤ j then xs.get? j.toNat else none

/-- What `create_real_time_acoustic_spectrum` renders: the historical
fallback `create_acoustic_spectrum(0)`, or a single simulated row with
its timestamp. -/
inductive SpectrumResult where
  | fallbackHistorical
  | live (row : List ℝ) (t : ℚ)

/-- `create_real_time_acoustic_spectrum` (lines 229-268).  When idle or
when the installed data is Python `None` it falls back to the historical
spectrum; a missing `time_index` argument defaults to the cursor; an
index `≥ len(freq_data)` is clamped to `len - 1`; the chosen row (and the
matching timestamp) is then read with numpy/list indexing, which wraps
negative indices and raises `IndexError` below `-len`.  If the slot still
holds the constructor-time list `[]`, subscripting it with the string key
`'freq_data'` raises `TypeError`. -/
def create_real_time_acoustic_spectrum (s : DashState)
    (timeIndex : Option ℤ) : Except PyError SpectrumResult :=
  if s.simulationRunning = false then .ok .fallbackHistorical
  else
    match s.simulationData with
    | .pyNone => .ok .fallbackHistorical
    | .initialList => .error .typeError
    | .series sd =>
        let t0 : ℤ := timeIndex.getD (s.currentTimeIndex : ℤ)
        let ti : ℤ :=
          if (sd.freqData.length : ℤ) ≤ t0 then (sd.freqData.length : ℤ) - 1
          else t0
        match npIndex sd.freqData ti, npIndex sd.timePoints ti with
        | some row, some t => .ok (.live row t)
        | _, _ => .error .indexError

/-- What `create_real_time_acoustic_heatmap` renders: the historical
fallback `create_acoustic_heatmap(50)`, or the windowed simulated rows
with their timestamps. -/
inductive HeatmapResult where
  | fallbackHistorical (n : ℕ)
  | live (rows : List (List ℝ)) (times : List ℚ)

/-- `create_real_time_acoustic_heatmap` (lines 270-298).  When idle or
when the installed data is Python `None` it falls back to
`create_acoustic_heatmap(50)`; a missing `num_samples` defaults to
`min(current_time_index + 1, 100)`; the window is the slice
`freq_data[:num_samples]` taken from the start of the series. -/
def create_real_time_acoustic_heatmap (s : DashState)
    (numSamples : Option ℕ) : Except PyError HeatmapResult :=
  if s.simulationRunning = false then .ok (.fallbackHistorical 50)
  else
    match s.simulationData with
    | .pyNone => .ok (.fallbackHistorical 50)
    | .initialList => .error .typeError
    | .series sd =>
        let n : ℕ := numSamples.getD (min (s.currentTimeIndex + 1) 100)
        .ok (.live (sd.freqData.take n) (sd.timePoints.take n))

/-- The `[:current_time_index + 1]` slice used by
`create_real_time_pressure_dashboard` (lines 146-147) and
`create_real_time_level_analysis` (lines 306-307): the windowed
"up to the cursor" read of one of the parallel arrays. -/
def windowUpTo {α : Type} (xs : List α) (cursor : ℕ) : List α :=
  xs.take (cursor + 1)

/-- Control point of the clock thread running `_simulation_loop`
(lines 118-124): `atTest` is about to evaluate the `while` condition,
`inBody` has passed the test and is sleeping / about to execute
`self.current_time_index += 1`, `exited` has left the loop. -/
inductive LoopPc where
  | atTest
  | inBody
  | exited
deriving DecidableEq

/-- The shared state visible to the clock thread and the stop action:
the `simulation_running` flag, the cursor `current_time_index`, and the
clock thread's control point. -/
structure LoopState where
  running : Bool
  cursor : ℕ
  pc : LoopPc
deriving DecidableEq

/-- Interleaved small-step semantics of `_simulation_loop` together with
the flag write of `stop_simulation`, with `N = len(time_points)`.

* `enterBody` / `exitLoop`: the `while self.simulation_running and
  self.current_time_index < N` test;
* `advance`: the loop body `time.sleep(interval);
  self.current_time_index += 1` — the only writer of the cursor;
* `stopFlag`: `self.simulation_running = False` performed by
  `stop_simulation`.  The subsequent `join(timeout=1)` provides no
  synchronisation: the sleep lasts `max(0.1, update_interval)` seconds
  (up to 5 s from the UI), so the one-second join can time out and
  return while the clock thread is still inside the body; hence no step
  of the clock thread is ruled out after the flag write. -/
inductive LoopStep (N : ℕ) : LoopState → LoopState → Prop where
  | enterBody (s : LoopState) (hpc : s.pc = .atTest) (hr : s.running = true)
      (hc : s.cursor < N) : LoopStep N s { s with pc := .inBody }
  | exitLoop (s : LoopState) (hpc : s.pc = .atTest)
      (h : s.running = false ∨ N ≤ s.cursor) :
      LoopStep N s { s with pc := .exited }
  | advance (s : LoopState) (hpc : s.pc = .inBody) :
      LoopStep N s { s with cursor := s.cursor + 1, pc := .atTest }
  | stopFlag (s : LoopState) : LoopStep N s { s with running := false }

/-- Shared state right after `start_simulation` reset the cursor and
launched the clock thread. -/
def loopInit : LoopState := { running := true, cursor := 0, pc := .atTest }

/-- Finitely many interleaved steps. -/
def LoopReach (N : ℕ) : LoopState → LoopState → Prop :=
  Relation.ReflTransGen (LoopStep N)

/-- A concrete base row and a concrete draw stream used to instantiate
theorems on explicit inputs. -/
noncomputable def testRow : AcousticRow := ⟨[0], 0, 0⟩

/-- The all-zero draw stream. -/
noncomputable def zeroRng : ℕ → ℝ := fun _ => 0

/-- A draw stream that agrees with `zeroRng` on the first 240 draws and
differs afterwards. -/
noncomputable def oneAfterRng : ℕ → ℝ := fun n => if n < 240 then 0 else 1

/-- A concrete one-row series, used to instantiate the heatmap
theorems at the end-of-playback cursor position. -/
noncomputable def heatmapSeries : SimData :=
  { timePoints := [0], freqData := [[5]], levelData := [[0]],
    pressureData := [[0]] }

/-- A concrete running dashboard state holding the one-row
`heatmapSeries` with the cursor at `1 = N`, the end-of-playback value
the cadence clock reaches. -/
noncomputable def heatmapState : DashState :=
  { simulationRunning := true, currentTimeIndex := 1,
    simulationData := .series heatmapSeries, simulationStartTime := some 0,
    acousticData := none }

/-- Number of cursor increments the clock thread can still perform once
the running flag is down: one if it is already inside the loop body,
none otherwise. -/
def pendingInc : LoopPc → ℕ
  | .inBody => 1
  | _ => 0

/-- The effective row index selected by
`create_real_time_acoustic_spectrum` for request `ti` against a series
of `N ≥ 1` rows: the source clamps `ti ≥ N` down to `N - 1`
(lines 237-238) and numpy indexing then wraps a negative index by adding
`N`. -/
def effectiveIndex (N : ℕ) (ti : ℤ) : ℤ :=
  if (N : ℤ) ≤ ti then (N : ℤ) - 1
  else if ti < 0 then (N : ℤ) + ti else ti

/-- A concrete two-row installed series used to instantiate the status
theorems. -/
noncomputable def statusSeries : SimData :=
  { timePoints := [0, 1], freqData := [[0], [0]], levelData := [[0], [0]],
    pressureData := [[0], [0]] }

/-- A concrete running dashboard state holding `statusSeries`, 10
seconds into playback with the cursor at row 1. -/
noncomputable def statusState : DashState :=
  { simulationRunning := true, currentTimeIndex := 1,
    simulationData := .series statusSeries, simulationStartTime := some 0,
    acousticData := none }

/-- A concrete two-row series with distinguishable frequency rows, used
to instantiate the snapshot-reader theorems. -/
noncomputable def spectrumSeries : SimData :=
  { timePoints := [0, 1], freqData := [[3], [7]], levelData := [[0], [0]],
    pressureData := [[0], [0]] }

/-- A concrete running dashboard state holding `spectrumSeries` with the
cursor still at row 0. -/
noncomputable def spectrumState : DashState :=
  { simulationRunning := true, currentTimeIndex := 0,
    simulationData := .series spectrumSeries, simulationStartTime := some 0,
    acousticData := none }

/-!  ## Helper lemmas  -/

theorem pyInt_nonpos {q : ℚ} (h : q ≤ 0) : pyInt q ≤ 0 := by
  unfold pyInt
  split
  · exact Int.ceil_le.mpr (by exact_mod_cast h)
  · exact Int.floor_nonpos h

theorem rowCount_of_nonpos_duration {d u : ℚ} (hd : d ≤ 0) :
    rowCount d u = 0 := by
  have hts : totalSeconds d ≤ 0 :=
    pyInt_nonpos (by nlinarith)
  have hstep : (1 : ℤ) ≤ intervalSeconds u := le_max_left _ _
  unfold rowCount pyRangeLen
  rw [if_pos (by omega)]
  have hlt : totalSeconds d + intervalSeconds u - 1 < intervalSeconds u := by
    omega
  have hdiv : (totalSeconds d + intervalSeconds u - 1) / intervalSeconds u ≤ 0 := by
    have := (Int.ediv_lt_iff_lt_mul (a := totalSeconds d + intervalSeconds u - 1)
      (b := 1) (c := intervalSeconds u) (by omega)).mpr (by omega)
    omega
  omega

theorem loopReach_inv {N : ℕ} {s : LoopState}
    (h : LoopReach N loopInit s) :
    s.cursor ≤ N ∧ (s.pc = .inBody → s.cursor < N) := by
  induction h with
  | refl => exact ⟨Nat.zero_le N, by intro hpc; cases hpc⟩
  | tail hab hstep ih =>
    cases hstep with
    | enterBody hpc hr hc => exact ⟨ih.1, fun _ => hc⟩
    | exitLoop hpc h2 => exact ⟨ih.1, by intro hpc2; cases hpc2⟩
    | advance hpc => exact ⟨ih.2 hpc, by intro hpc2; cases hpc2⟩
    | stopFlag => exact ih

theorem loopReach_stopped {N : ℕ} {s t : LoopState}
    (hr : s.running = false) (h : LoopReach N s t) :
    t.running = false ∧
      t.cursor + pendingInc t.pc ≤ s.cursor + pendingInc s.pc := by
  induction h with
  | refl => exact ⟨hr, le_rfl⟩
  | tail hab hstep ih =>
    obtain ⟨ihr, ihb⟩ := ih
    cases hstep with
    | enterBody hpc hru hc => rw [ihr] at hru; cases hru
    | exitLoop hpc h2 =>
        refine ⟨ihr, ?_⟩
        rw [hpc] at ihb
        simpa [pendingInc] using ihb
    | advance hpc =>
        refine ⟨ihr, ?_⟩
        rw [hpc] at ihb
        simp only [pendingInc] at ihb ⊢
        omega
    | stopFlag => exact ⟨rfl, ihb⟩

/-- With a single generated row (`N = 1`) the clock thread can drive the
cursor to `1`: enter the body once (the test `0 < 1` passes) and execute
the increment. -/
theorem reach_cursor_one :
    LoopReach 1 loopInit { running := true, cursor := 1, pc := .atTest } := by
  have h1 : LoopStep 1 loopInit { running := true, cursor := 0, pc := .inBody } :=
    LoopStep.enterBody loopInit rfl rfl (by decide)
  have h2 : LoopStep 1 { running := true, cursor := 0, pc := .inBody }
      { running := true, cursor := 1, pc := .atTest } :=
    LoopStep.advance _ rfl
  exact Relation.ReflTransGen.tail (Relation.ReflTransGen.tail .refl h1) h2

/-!  ## Claim theorems  -/

/-- C5: calling `start_simulation` while a session is running returns the
`"Simulation already running!"` signal and leaves the existing session
completely untouched — the cursor, the installed series, the start time
and the running flag are unchanged, because the guard returns before any
mutation. -/
theorem start_while_running_rejected (rng : ℕ → ℝ)
    (genTime startTime d u : ℚ) (s : DashState)
    (h : s.simulationRunning = true) :
    start_simulation rng genTime startTime d u s = (s, .ok .alreadyRunning) := by
  unfold start_simulation
  simp [h]

/-- Witness for `start_while_running_rejected` at a concrete running
state. -/
theorem start_while_running_rejected_witness :
    ({ simulationRunning := true, currentTimeIndex := 3,
       simulationData := .initialList, simulationStartTime := none,
       acousticData := none } : DashState).simulationRunning = true ∧
    start_simulation zeroRng 0 0 10 1
      { simulationRunning := true, currentTimeIndex := 3,
        simulationData := .initialList, simulationStartTime := none,
        acousticData := none } =
      ({ simulationRunning := true, currentTimeIndex := 3,
         simulationData := .initialList, simulationStartTime := none,
         acousticData := none }, .ok .alreadyRunning) :=
  ⟨rfl, start_while_running_rejected zeroRng 0 0 10 1 _ rfl⟩

/-- C9: when the historical dataset failed to load (`acoustic_data` is
Python `None`), `start_simulation` first sets `simulation_running = True`
and then raises `AttributeError` from `generate_simulation_data`
(attribute access `None.empty`), so the controller is left in the
Running state with the series slot unchanged (no series installed), and
every subsequent `start_simulation` call — with any arguments — is
rejected as already running instead of the failure being rejected
atomically before any state mutation. -/
theorem start_after_failed_load_sticks_running (rng : ℕ → ℝ)
    (genTime startTime d u : ℚ) (s : DashState)
    (hA : s.acousticData = none) (hR : s.simulationRunning = false) :
    (start_simulation rng genTime startTime d u s).2 = .error .attributeError ∧
    (start_simulation rng genTime startTime d u s).1.simulationRunning = true ∧
    (start_simulation rng genTime startTime d u s).1.simulationData
        = s.simulationData ∧
    (start_simulation rng genTime startTime d u s).1.simulationStartTime
        = s.simulationStartTime ∧
    (start_simulation rng genTime startTime d u s).1.currentTimeIndex
        = s.currentTimeIndex ∧
    (∀ (rng2 : ℕ → ℝ) (g2 st2 d2 u2 : ℚ),
      start_simulation rng2 g2 st2 d2 u2
          (start_simulation rng genTime startTime d u s).1
        = ((start_simulation rng genTime startTime d u s).1,
           .ok .alreadyRunning)) := by
  have hmain : start_simulation rng genTime startTime d u s
      = ({ s with simulationRunning := true }, .error .attributeError) := by
    unfold start_simulation generate_simulation_data
    rw [hA]
    simp [hR]
  rw [hmain]
  refine ⟨rfl, rfl, rfl, rfl, rfl, ?_⟩
  intro rng2 g2 st2 d2 u2
  unfold start_simulation
  simp

/-- Witness for `start_after_failed_load_sticks_running` at the
constructor-time state with a failed load. -/
theorem start_after_failed_load_sticks_running_witness :
    (initDashState none).acousticData = none ∧
    (initDashState none).simulationRunning = false ∧
    (start_simulation zeroRng 0 0 10 1 (initDashState none)).2
        = .error .attributeError ∧
    (start_simulation zeroRng 0 0 10 1 (initDashState none)).1.simulationRunning
        = true := by
  have h := start_after_failed_load_sticks_running zeroRng 0 0 10 1
    (initDashState none) rfl rfl
  exact ⟨rfl, rfl, h.1, h.2.1⟩

/-- C2, counterexample: with a single generated row (`N = 1`) a shared
state with `cursor = 1` is reachable from the post-start state — the
test `cursor < N` passes at `cursor = 0` and the body then increments —
so the cursor does advance past `N - 1 = 0`, refuting
`0 ≤ cursor ≤ N-1` "at all times". -/
theorem cursor_exceeds_last_index_counterexample :
    LoopReach 1 loopInit { running := true, cursor := 1, pc := .atTest } ∧
    ¬ ({ running := true, cursor := 1, pc := .atTest } : LoopState).cursor
        ≤ 1 - 1 :=
  ⟨reach_cursor_one, by decide⟩

/-- C2, amended: at all times `0 ≤ cursor ≤ N` (the loop's final
increment takes the cursor from `N-1` to `N`, one past the last row
index), and every windowed read — the `[:cursor + 1]` slices of the
chart functions and the default heatmap window — returns at most
`cursor + 1` rows. -/
theorem cursor_bounded_by_rowcount {N : ℕ} {s : LoopState}
    (h : LoopReach N loopInit s) :
    s.cursor ≤ N ∧
    (∀ (xs : List (List ℝ)),
      (windowUpTo xs s.cursor).length ≤ s.cursor + 1) ∧
    (∀ (ds : DashState) (sd : SimData) (rows : List (List ℝ))
        (times : List ℚ),
      ds.simulationRunning = true → ds.simulationData = .series sd →
      ds.currentTimeIndex = s.cursor →
      create_real_time_acoustic_heatmap ds none = .ok (.live rows times) →
      rows.length ≤ s.cursor + 1) := by
  refine ⟨(loopReach_inv h).1, ?_, ?_⟩
  · intro xs
    simp only [windowUpTo, List.length_take]
    exact min_le_left _ _
  · intro ds sd rows times hrun hslot hcur hres
    rw [create_real_time_acoustic_heatmap, hrun, hslot] at hres
    simp only [Bool.true_eq_false, if_false, Option.getD_none] at hres
    injection hres with hres
    injection hres with h1 h2
    subst h1
    calc (sd.freqData.take (Option.getD none
          (min (ds.currentTimeIndex + 1) 100))).length
        ≤ min (ds.currentTimeIndex + 1) 100 := by
          simp [List.length_take]
      _ ≤ ds.currentTimeIndex + 1 := min_le_left _ _
      _ = s.cursor + 1 := by rw [hcur]

/-- Witness for `cursor_bounded_by_rowcount` at the reachable end state
of a one-row session. -/
theorem cursor_bounded_by_rowcount_witness :
    ({ running := true, cursor := 1, pc := .atTest } : LoopState).cursor
        ≤ 1 ∧
    (windowUpTo [[(0 : ℝ)]] 1).length ≤ 1 + 1 := by
  have h := cursor_bounded_by_rowcount (N := 1) reach_cursor_one
  exact ⟨h.1, h.2.1 [[(0 : ℝ)]]⟩

/-- C3, counterexample: the stop action is the flag write
`simulation_running = False` (the follow-up `join(timeout=1)` can time
out while the clock thread is sleeping inside the loop body, so it adds
no synchronisation).  From a reachable state with the clock inside the
body, after the stop transition has completed the increment step is
still enabled and mutates the cursor — refuting "no cursor-increment
step is ever again enabled after stop completes". -/
theorem increment_after_stop_counterexample :
    LoopReach 5 loopInit { running := true, cursor := 0, pc := .inBody } ∧
    LoopStep 5 { running := true, cursor := 0, pc := .inBody }
      { running := false, cursor := 0, pc := .inBody } ∧
    LoopStep 5 { running := false, cursor := 0, pc := .inBody }
      { running := false, cursor := 1, pc := .atTest } := by
  refine ⟨?_, ?_, ?_⟩
  · exact Relation.ReflTransGen.tail .refl
      (LoopStep.enterBody loopInit rfl rfl (by decide))
  · exact LoopStep.stopFlag _
  · exact LoopStep.advance _ rfl

/-- C3, amended: once the running flag is down, the flag stays down and
the cursor can increase at most once more (the body the clock had
already entered finishes its sleep and increment; the next test then
exits the loop), so every state reachable after the stop has
`cursor ≤ cursor_at_stop + 1`. -/
theorem stop_bounds_later_increments {N : ℕ} {s t : LoopState}
    (hr : s.running = false) (h : LoopReach N s t) :
    t.running = false ∧ t.cursor ≤ s.cursor + 1 := by
  obtain ⟨h1, h2⟩ := loopReach_stopped hr h
  refine ⟨h1, ?_⟩
  have hs : pendingInc s.pc ≤ 1 := by cases s.pc <;> simp [pendingInc]
  omega

/-- Witness for `stop_bounds_later_increments`: from the stopped state
with the clock mid-body, the single residual increment respects the
bound. -/
theorem stop_bounds_later_increments_witness :
    ({ running := false, cursor := 0, pc := .inBody } : LoopState).running
        = false ∧
    ({ running := false, cursor := 1, pc := .atTest } : LoopState).cursor
        ≤ 0 + 1 := by
  have h := stop_bounds_later_increments (N := 5)
    (s := { running := false, cursor := 0, pc := .inBody }) rfl
    (Relation.ReflTransGen.tail .refl (LoopStep.advance _ rfl))
  exact ⟨rfl, h.2⟩

theorem timePoint_strictMono {st u : ℚ} (hu : 0 < u) :
    StrictMono (timePoint st u) := by
  intro a b hab
  unfold timePoint loopVar
  have hs : (1 : ℤ) ≤ intervalSeconds u := le_max_left _ _
  have h2 : (a : ℚ) * (intervalSeconds u : ℚ)
      < (b : ℚ) * (intervalSeconds u : ℚ) := by
    have h1 : (a : ℤ) * intervalSeconds u < (b : ℤ) * intervalSeconds u :=
      mul_lt_mul_of_pos_right (by exact_mod_cast hab) (by omega)
    exact_mod_cast h1
  push_cast
  exact add_lt_add_left (mul_lt_mul_of_pos_right h2 hu) st

theorem rowCount_one_half : rowCount 1 (1 / 2) = 60 := by
  norm_num [rowCount, pyRangeLen, totalSeconds, intervalSeconds, pyInt]
  decide

theorem rowCount_one_fiveHalves : rowCount 1 (5 / 2) = 30 := by
  norm_num [rowCount, pyRangeLen, totalSeconds, intervalSeconds, pyInt]
  decide

/-- C1, counterexample, at the valid slider pair `duration_minutes = 1`,
`update_interval = 0.5` (durationSeconds = 60): the claim predicts
`floor(60 / 0.5) = 120` rows, but the synthesizer iterates
`range(0, 60, max(1, int(0.5))) = range(0, 60, 1)` and produces 60 rows;
and at the valid pair `update_interval = 2.5` row 1 carries timestamp
`sessionStart + 5` (the loop variable jumps by `int`-clamped steps of 2
and is multiplied by the raw 2.5-second interval), not
`sessionStart + 1 * 2.5`. -/
theorem generate_row_count_counterexample :
    generate_simulation_data (some [testRow]) zeroRng 0 1 (1 / 2)
      = .ok (some (mkSimData testRow zeroRng 0 1 (1 / 2))) ∧
    (mkSimData testRow zeroRng 0 1 (1 / 2)).timePoints.length = 60 ∧
    Int.floor ((1 * 60 : ℚ) / (1 / 2)) = 120 ∧
    (mkSimData testRow zeroRng 0 1 (5 / 2)).timePoints.get? 1 = some 5 ∧
    (5 : ℚ) ≠ 0 + 1 * (5 / 2) := by
  refine ⟨rfl, ?_, by norm_num, ?_, by norm_num⟩
  · simp only [mkSimData, List.length_map, List.length_range]
    exact rowCount_one_half
  · simp only [mkSimData, List.get?_eq_getElem?, List.getElem?_map,
      List.getElem?_range (rowCount_one_fiveHalves ▸ (by omega : (1:ℕ) < 30)),
      Option.map_some']
    norm_num [timePoint, loopVar, intervalSeconds, pyInt]

/-- C1, amended: for a nonempty acoustic dataframe the synthesizer
returns the series built by `mkSimData`; all four parallel arrays have
exactly `rowCount` rows, where `rowCount d u =
⌈int(d*60) / max(1, int(u))⌉` (the `range(0, total_seconds,
interval_seconds)` count), row `k` carries timestamp
`sessionStart + k * max(1, int(u)) * u`, consecutive timestamps are
spaced by exactly `max(1, int(u)) * u` (which equals `u` only when
`u < 2`), and for `u > 0` the timestamps are strictly increasing. -/
theorem generate_row_count_and_timestamps (r0 : AcousticRow)
    (rng : ℕ → ℝ) (rest : List AcousticRow) (st d u : ℚ) (hu : 0 < u) :
    generate_simulation_data (some (r0 :: rest)) rng st d u
      = .ok (some (mkSimData r0 rng st d u)) ∧
    (mkSimData r0 rng st d u).timePoints.length = rowCount d u ∧
    (mkSimData r0 rng st d u).freqData.length = rowCount d u ∧
    (mkSimData r0 rng st d u).levelData.length = rowCount d u ∧
    (mkSimData r0 rng st d u).pressureData.length = rowCount d u ∧
    (∀ k, k < rowCount d u →
      (mkSimData r0 rng st d u).timePoints.get? k
        = some (st + (k : ℚ) * (intervalSeconds u : ℚ) * u)) ∧
    (∀ k : ℕ, timePoint st u (k + 1) - timePoint st u k
        = (intervalSeconds u : ℚ) * u) ∧
    List.Pairwise (· < ·) (mkSimData r0 rng st d u).timePoints := by
  refine ⟨rfl, by simp [mkSimData], by simp [mkSimData], by simp [mkSimData],
    by simp [mkSimData], ?_, ?_, ?_⟩
  · intro k hk
    simp only [mkSimData, List.get?_eq_getElem?, List.getElem?_map,
      List.getElem?_range hk, Option.map_some']
    unfold timePoint loopVar
    push_cast
    ring_nf
  · intro k
    unfold timePoint loopVar
    push_cast
    ring
  · simp only [mkSimData]
    exact (List.pairwise_lt_range _).map _
      (fun _ _ h => timePoint_strictMono hu h)

/-- Witness for `generate_row_count_and_timestamps` at the concrete
input `duration_minutes = 1`, `update_interval = 1`. -/
theorem generate_row_count_and_timestamps_witness :
    (0 : ℚ) < 1 ∧
    (mkSimData testRow zeroRng 0 1 1).timePoints.length = rowCount 1 1 ∧
    List.Pairwise (· < ·) (mkSimData testRow zeroRng 0 1 1).timePoints := by
  have h := generate_row_count_and_timestamps testRow zeroRng [] 0 1 1
    (by norm_num)
  exact ⟨by norm_num, h.2.1, h.2.2.2.2.2.2.2⟩

/-- C4, counterexample: `start_simulation` with `duration_minutes = 0`
(a non-positive duration producing zero rows) does not fail with any
configuration error: it reports success, flips the running flag, and
installs a degenerate zero-row series — state is mutated and no
`InvalidConfiguration` rejection exists anywhere in the code. -/
theorem start_accepts_zero_duration_counterexample :
    (start_simulation zeroRng 0 0 0 1 (initDashState (some [testRow]))).2
        = .ok .started ∧
    (start_simulation zeroRng 0 0 0 1
        (initDashState (some [testRow]))).1.simulationRunning = true ∧
    (start_simulation zeroRng 0 0 0 1
        (initDashState (some [testRow]))).1.simulationData
        = .series (mkSimData testRow zeroRng 0 0 1) ∧
    (mkSimData testRow zeroRng 0 0 1).timePoints.length = 0 := by
  have hmain : start_simulation zeroRng 0 0 0 1 (initDashState (some [testRow]))
      = ({ simulationRunning := true, currentTimeIndex := 0,
           simulationData := .series (mkSimData testRow zeroRng 0 0 1),
           simulationStartTime := some 0,
           acousticData := some [testRow] }, .ok .started) := by
    unfold start_simulation generate_simulation_data initDashState
    simp
  rw [hmain]
  refine ⟨rfl, rfl, rfl, ?_⟩
  simp only [mkSimData, List.length_map, List.length_range]
  exact rowCount_of_nonpos_duration le_rfl

/-- C4, amended: the code performs no configuration validation at all.
For any running-flag-down state with a nonempty acoustic dataframe and
any non-positive duration, `start_simulation` succeeds, sets the running
flag and installs the generated series, whose four arrays are all empty
(`rowCount = 0`); non-positive intervals are silently clamped
(`max(1, int(u))` in the synthesizer, `max(0.1, u)` in the clock)
instead of being rejected. -/
theorem start_no_validation (rng : ℕ → ℝ) (g st d u : ℚ) (s : DashState)
    (r0 : AcousticRow) (rest : List AcousticRow)
    (hR : s.simulationRunning = false)
    (hA : s.acousticData = some (r0 :: rest)) (hd : d ≤ 0) :
    (start_simulation rng g st d u s).2 = .ok .started ∧
    (start_simulation rng g st d u s).1.simulationRunning = true ∧
    (start_simulation rng g st d u s).1.simulationData
        = .series (mkSimData r0 rng g d u) ∧
    (mkSimData r0 rng g d u).timePoints.length = 0 ∧
    (mkSimData r0 rng g d u).freqData.length = 0 ∧
    (mkSimData r0 rng g d u).levelData.length = 0 ∧
    (mkSimData r0 rng g d u).pressureData.length = 0 := by
  have hmain : start_simulation rng g st d u s
      = ({ s with
            simulationRunning := true
            simulationData := .series (mkSimData r0 rng g d u)
            simulationStartTime := some st
            currentTimeIndex := 0 }, .ok .started) := by
    unfold start_simulation generate_simulation_data
    rw [hA]
    simp [hR]
  rw [hmain]
  have hzero : rowCount d u = 0 := rowCount_of_nonpos_duration hd
  refine ⟨rfl, rfl, rfl, ?_, ?_, ?_, ?_⟩ <;>
    simp only [mkSimData, List.length_map, List.length_range] <;> exact hzero

/-- Witness for `start_no_validation` at the concrete zero-duration
start. -/
theorem start_no_validation_witness :
    (initDashState (some [testRow])).simulationRunning = false ∧
    (initDashState (some [testRow])).acousticData = some [testRow] ∧
    (0 : ℚ) ≤ 0 ∧
    (start_simulation zeroRng 0 0 0 (1 / 2)
        (initDashState (some [testRow]))).2 = .ok .started ∧
    (mkSimData testRow zeroRng 0 0 (1 / 2)).timePoints.length = 0 := by
  have h := start_no_validation zeroRng 0 0 0 (1 / 2)
    (initDashState (some [testRow])) testRow [] rfl rfl le_rfl
  exact ⟨rfl, rfl, le_rfl, h.1, h.2.2.2.1⟩

/-- C6, counterexample: with `N = 2` generated rows and `cursor = 1`,
`get_simulation_status` reports progress
`(current_time_index / len(time_points)) * 100 = 50`, not the claimed
`100 * cursor / (N - 1) = 100` — the divisor is `N`, not `N - 1`. -/
theorem status_progress_counterexample :
    get_simulation_status 10 statusState = .ok (.live 0 10 50 2) ∧
    (50 : ℚ) ≠ 100 * 1 / (2 - 1) := by
  have hf : ⌊(10 - 0 : ℚ) / 60⌋ = 0 := by
    rw [Int.floor_eq_iff] <;> norm_num
  have hf2 : ⌊(10 - 0 : ℚ) - 60 * ⌊(10 - 0 : ℚ) / 60⌋⌋ = 10 := by
    rw [hf, Int.floor_eq_iff] <;> norm_num
  refine ⟨?_, by norm_num⟩
  unfold get_simulation_status statusState statusSeries
  simp only [List.length_cons, List.length_nil]
  norm_num [hf, hf2]

/-- C6, amended: while running with an installed series of `N > 0` rows
and a set start time, `get_simulation_status` reports elapsed
minutes/seconds from the start time, `pointsEmitted = cursor + 1`, and
`progressPercent = (cursor / N) * 100` — i.e. `100·cursor/N`, with
divisor `N = len(time_points)` rather than `N - 1`. -/
theorem status_reports_progress_over_rowcount (now t0 : ℚ)
    (s : DashState) (sd : SimData) (hR : s.simulationRunning = true)
    (hT : s.simulationStartTime = some t0)
    (hD : s.simulationData = .series sd)
    (hN : 0 < sd.timePoints.length) :
    get_simulation_status now s
      = .ok (.live ⌊(now - t0) / 60⌋
          ⌊(now - t0) - 60 * ⌊(now - t0) / 60⌋⌋
          ((s.currentTimeIndex : ℚ) / (sd.timePoints.length : ℚ) * 100)
          (s.currentTimeIndex + 1)) ∧
    (s.currentTimeIndex : ℚ) / (sd.timePoints.length : ℚ) * 100
      = 100 * (s.currentTimeIndex : ℚ) / (sd.timePoints.length : ℚ) := by
  refine ⟨?_, by ring⟩
  unfold get_simulation_status
  rw [hT, hD]
  simp [hR, hN.ne']

/-- Witness for `status_reports_progress_over_rowcount` at the concrete
running state. -/
theorem status_reports_progress_over_rowcount_witness :
    statusState.simulationRunning = true ∧
    statusState.simulationStartTime = some 0 ∧
    statusState.simulationData = .series statusSeries ∧
    0 < statusSeries.timePoints.length ∧
    get_simulation_status 10 statusState
      = .ok (.live ⌊(10 - 0 : ℚ) / 60⌋
          ⌊(10 - 0 : ℚ) - 60 * ⌊(10 - 0 : ℚ) / 60⌋⌋
          ((statusState.currentTimeIndex : ℚ)
            / (statusSeries.timePoints.length : ℚ) * 100)
          (statusState.currentTimeIndex + 1)) := by
  refine ⟨rfl, rfl, rfl, by simp [statusSeries], ?_⟩
  exact (status_reports_progress_over_rowcount 10 0 statusState statusSeries
    rfl rfl rfl (by simp [statusSeries])).1

/-- C7, counterexample: while running with a 2-row series and
`cursor = 0`, the request `pointAt(-5)` raises `IndexError` (numpy
rejects indices below `-len`), so the call can fail; and `pointAt(1)`
returns row 1, outside the claimed clamp range `[0, cursor] = [0, 0]` —
the upper clamp is against `len - 1`, not the cursor. -/
theorem spectrum_index_counterexample :
    create_real_time_acoustic_spectrum spectrumState (some (-5))
      = .error .indexError ∧
    create_real_time_acoustic_spectrum spectrumState (some 1)
      = .ok (.live [7] 1) ∧
    ¬ ((1 : ℤ) ≤ (spectrumState.currentTimeIndex : ℤ)) := by
  refine ⟨?_, ?_, by norm_num [spectrumState]⟩
  · unfold create_real_time_acoustic_spectrum spectrumState spectrumSeries
      npIndex
    norm_num
  · unfold create_real_time_acoustic_spectrum spectrumState spectrumSeries
      npIndex
    norm_num

/-- C7, amended: while running with an installed `N ≥ 1`-row series,
`create_real_time_acoustic_spectrum` clamps the requested index into
`[0, N-1]` — not `[0, cursor]` — as follows: an index `≥ N` is clamped
to `N - 1`; a negative index in `[-N, -1]` wraps Python-style to
`N + index`; and an index below `-N` is *not* clamped but raises
`IndexError`.  Within `[-N, ∞)` a single valid row (and its timestamp)
is always returned. -/
theorem spectrum_index_clamping (s : DashState) (sd : SimData) (N : ℕ)
    (ti : ℤ) (hR : s.simulationRunning = true)
    (hD : s.simulationData = .series sd) (hF : sd.freqData.length = N)
    (hT : sd.timePoints.length = N) (hN : 0 < N) :
    (ti < -(N : ℤ) →
      create_real_time_acoustic_spectrum s (some ti)
        = .error .indexError) ∧
    (-(N : ℤ) ≤ ti →
      0 ≤ effectiveIndex N ti ∧ (effectiveIndex N ti).toNat < N ∧
      ∀ (row : List ℝ) (t : ℚ),
        sd.freqData.get? (effectiveIndex N ti).toNat = some row →
        sd.timePoints.get? (effectiveIndex N ti).toNat = some t →
        create_real_time_acoustic_spectrum s (some ti)
          = .ok (.live row t)) := by
  constructor
  · intro hlt
    have hc : ¬ ((N : ℤ) ≤ ti) := by omega
    unfold create_real_time_acoustic_spectrum npIndex
    rw [hD]
    simp only [hR, Bool.true_eq_false, if_false, Option.getD_some, hF, hT,
      if_neg hc]
    have hneg : ti < 0 := by omega
    simp only [if_pos hneg]
    have hj : ¬ (0 ≤ (N : ℤ) + ti) := by omega
    simp [hj]
  · intro hge
    have h0 : 0 ≤ effectiveIndex N ti := by
      unfold effectiveIndex
      split
      · omega
      · split <;> omega
    have h1 : effectiveIndex N ti < N := by
      unfold effectiveIndex
      split
      · omega
      · split <;> omega
    refine ⟨h0, by omega, ?_⟩
    intro row t hrow ht
    unfold create_real_time_acoustic_spectrum npIndex
    rw [hD]
    simp only [hR, Bool.true_eq_false, if_false, Option.getD_some, hF, hT]
    unfold effectiveIndex at hrow ht
    by_cases hc : (N : ℤ) ≤ ti
    · simp only [if_pos hc] at *
      have hnn : ¬ ((N : ℤ) - 1 < 0) := by omega
      simp only [if_neg hnn, if_pos (by omega : (0 : ℤ) ≤ (N : ℤ) - 1)]
      rw [hrow, ht]
    · simp only [if_neg hc] at *
      by_cases hneg : ti < 0
      · simp only [if_pos hneg] at *
        simp only [if_pos (by omega : (0 : ℤ) ≤ (N : ℤ) + ti)]
        rw [hrow, ht]
      · simp only [if_neg hneg] at *
        simp only [if_pos (by omega : (0 : ℤ) ≤ ti)]
        rw [hrow, ht]

/-- Witness for `spectrum_index_clamping`: the over-length request
`pointAt(3)` against the 2-row series is clamped to row 1. -/
theorem spectrum_index_clamping_witness :
    spectrumState.simulationRunning = true ∧
    spectrumState.simulationData = .series spectrumSeries ∧
    spectrumSeries.freqData.length = 2 ∧
    spectrumSeries.timePoints.length = 2 ∧
    (0 : ℕ) < 2 ∧ (-(2 : ℤ) ≤ 3) ∧
    create_real_time_acoustic_spectrum spectrumState (some 3)
      = .ok (.live [7] 1) := by
  have h := spectrum_index_clamping spectrumState spectrumSeries 2 3 rfl rfl
    (by simp [spectrumSeries]) (by simp [spectrumSeries]) (by norm_num)
  refine ⟨rfl, rfl, by simp [spectrumSeries], by simp [spectrumSeries],
    by norm_num, by norm_num, ?_⟩
  exact (h.2 (by norm_num)).2.2 [7] 1 rfl rfl

/-- C8: synthesis is deterministic in the consumed random draws.  The
source has no seed parameter — it always draws from the process-wide
`np.random` source (modelled as the injected stream `rng`), which is
what a seed determines.  Two runs whose streams agree on the
`rowCount * (B + 3)` draws the loop consumes produce identical series —
every timestamp, frequency, level and pressure entry equal — and
identical `generate_simulation_data` results. -/
theorem generate_deterministic_in_draws (r0 : AcousticRow)
    (rng1 rng2 : ℕ → ℝ) (rest : List AcousticRow) (st d u : ℚ)
    (h : ∀ n, n < rowCount d u * drawsPerRow r0.freqs.length →
      rng1 n = rng2 n) :
    mkSimData r0 rng1 st d u = mkSimData r0 rng2 st d u ∧
    generate_simulation_data (some (r0 :: rest)) rng1 st d u
      = generate_simulation_data (some (r0 :: rest)) rng2 st d u := by
  have hidx : ∀ k, k < rowCount d u →
      ∀ off, off < drawsPerRow r0.freqs.length →
      rng1 (k * drawsPerRow r0.freqs.length + off)
        = rng2 (k * drawsPerRow r0.freqs.length + off) := by
    intro k hk off hoff
    apply h
    calc k * drawsPerRow r0.freqs.length + off
        < (k + 1) * drawsPerRow r0.freqs.length := by
          rw [Nat.succ_mul]; omega
      _ ≤ rowCount d u * drawsPerRow r0.freqs.length :=
          Nat.mul_le_mul_right _ hk
  have hmk : mkSimData r0 rng1 st d u = mkSimData r0 rng2 st d u := by
    unfold mkSimData
    simp only [SimData.mk.injEq, true_and]
    refine ⟨?_, ?_, ?_⟩
    · apply List.map_congr_left
      intro k hk'
      have hk := List.mem_range.mp hk'
      unfold freqRow
      congr 1
      apply List.map_congr_left
      intro j hj'
      have hj := List.mem_range.mp hj'
      exact hidx k hk j (by unfold drawsPerRow; omega)
    · apply List.map_congr_left
      intro k hk'
      have hk := List.mem_range.mp hk'
      have e1 := hidx k hk r0.freqs.length (by unfold drawsPerRow; omega)
      have e2 : rng1 (k * drawsPerRow r0.freqs.length + r0.freqs.length + 1)
          = rng2 (k * drawsPerRow r0.freqs.length + r0.freqs.length + 1) := by
        have := hidx k hk (r0.freqs.length + 1) (by unfold drawsPerRow; omega)
        rwa [← Nat.add_assoc] at this
      unfold levelRow
      rw [e1, e2]
    · apply List.map_congr_left
      intro k hk'
      have hk := List.mem_range.mp hk'
      have e3 : rng1 (k * drawsPerRow r0.freqs.length + r0.freqs.length + 2)
          = rng2 (k * drawsPerRow r0.freqs.length + r0.freqs.length + 2) := by
        have := hidx k hk (r0.freqs.length + 2) (by unfold drawsPerRow; omega)
        rwa [← Nat.add_assoc] at this
      unfold pressureRow
      rw [e3]
  refine ⟨hmk, ?_⟩
  show Except.ok (some (mkSimData r0 rng1 st d u))
      = (Except.ok (some (mkSimData r0 rng2 st d u)) :
        Except PyError (Option SimData))
  rw [hmk]

/-- Witness for `generate_deterministic_in_draws`: the all-zero stream
and a stream that differs only beyond the 240 draws consumed by a
60-row, one-band run produce identical series. -/
theorem generate_deterministic_in_draws_witness :
    mkSimData testRow zeroRng 0 1 1 = mkSimData testRow oneAfterRng 0 1 1 ∧
    generate_simulation_data (some [testRow]) zeroRng 0 1 1
      = generate_simulation_data (some [testRow]) oneAfterRng 0 1 1 := by
  have hcnt : rowCount 1 1 * drawsPerRow testRow.freqs.length = 240 := by
    have h60 : rowCount 1 1 = 60 := by
      norm_num [rowCount, pyRangeLen, totalSeconds, intervalSeconds, pyInt]
      decide
    rw [h60]
    simp [drawsPerRow, testRow]
  exact generate_deterministic_in_draws testRow zeroRng oneAfterRng [] 0 1 1
    (by intro n hn
        rw [hcnt] at hn
        simp [zeroRng, oneAfterRng, hn])

/-- C10, counterexample: the default heatmap window is *not* always
exactly `min(cursor + 1, 100)` rows.  At end of playback the cursor
equals `N` (reachable per the cadence-clock semantics), so for a one-row
series with `cursor = 1` the default window is the whole 1-row series,
while `min(cursor + 1, 100) = 2`. -/
theorem heatmap_default_window_counterexample :
    LoopReach 1 loopInit { running := true, cursor := 1, pc := .atTest } ∧
    create_real_time_acoustic_heatmap heatmapState none
      = .ok (.live [[5]] [0]) ∧
    ([[(5 : ℝ)]] : List (List ℝ)).length
      ≠ min (heatmapState.currentTimeIndex + 1) 100 := by
  refine ⟨reach_cursor_one, ?_, by simp [heatmapState]⟩
  unfold create_real_time_acoustic_heatmap heatmapState heatmapSeries
  norm_num

/-- C10, amended: while running with an installed series, the default
(`num_samples = None`) heatmap serves the slice
`freq_data[:min(cursor + 1, 100)]` taken from the start of the series —
that is, exactly the first `min(cursor + 1, 100, N)` rows, where `N` is
the series length — and therefore never more than 100 rows regardless
of how far the cursor has advanced. -/
theorem heatmap_default_window (s : DashState) (sd : SimData)
    (hR : s.simulationRunning = true)
    (hD : s.simulationData = .series sd) :
    create_real_time_acoustic_heatmap s none
      = .ok (.live (sd.freqData.take (min (s.currentTimeIndex + 1) 100))
          (sd.timePoints.take (min (s.currentTimeIndex + 1) 100))) ∧
    (sd.freqData.take (min (s.currentTimeIndex + 1) 100)).length
      = min (min (s.currentTimeIndex + 1) 100) sd.freqData.length ∧
    (sd.freqData.take (min (s.currentTimeIndex + 1) 100)).length ≤ 100 := by
  refine ⟨?_, by simp [List.length_take], ?_⟩
  · unfold create_real_time_acoustic_heatmap
    rw [hD]
    simp [hR]
  · simp only [List.length_take]
    omega

/-- Witness for `heatmap_default_window` at the concrete running state
with the cursor on row 0 of a two-row series. -/
theorem heatmap_default_window_witness :
    spectrumState.simulationRunning = true ∧
    spectrumState.simulationData = .series spectrumSeries ∧
    create_real_time_acoustic_heatmap spectrumState none
      = .ok (.live
          (spectrumSeries.freqData.take
            (min (spectrumState.currentTimeIndex + 1) 100))
          (spectrumSeries.timePoints.take
            (min (spectrumState.currentTimeIndex + 1) 100))) := by
  exact ⟨rfl, rfl, (heatmap_default_window spectrumState spectrumSeries
    rfl rfl).1⟩

end AcousticDash
